import Mathlib

/-!
# Verification of the AmbiMatter bridge command pipeline

Shallow embedding of `src/bridge/ambient_bridge.py`: the unit converters,
the per-zone dedup state, the bounded command queue, the UDP ingestion
listener, the zone dispatch, and the Matter reconnect supervisor.

Python machine-level details are modelled as follows: Python `int` is `Int`;
Python `float` is `ℚ` (the float values arising here are far inside the
range where double rounding could flip a truncation result); `int(x)` on a
non-integer value truncates toward zero (`truncInt`); exceptions raised by
downstream calls are an explicit `Except` oracle; an `asyncio.Queue` is a
`List` with its head as the consumer end.
-/

namespace AmbiMatter

/-- Python `int(x)`: truncation toward zero of a real value. -/
def truncInt (q : ℚ) : Int :=
  if 0 ≤ q then ⌊q⌋ else ⌈q⌉

/-! ## Data classes (`ambient_bridge.py` lines 28–63) -/

/-- `ZoneConfig` dataclass: per-zone calibration and addressing. -/
structure ZoneConfig where
  name : String
  node_ids : List Int
  endpoint_id : Int
  brightness_multiplier : ℚ
  min_kelvin : Int
  max_kelvin : Int
deriving Repr

/-- `ZoneState` dataclass: last-sent state for deduplication; -1 means never sent. -/
structure ZoneState where
  last_mireds : Int
  last_brightness : Int
deriving Repr, DecidableEq

/-- The default-constructed `ZoneState()` used at startup in `run_bridge`. -/
def ZoneState.initial : ZoneState := ⟨-1, -1⟩

/-- The fields of the `BridgeConfig` dataclass that the command pipeline reads. -/
structure BridgeConfig where
  reconnect_initial_delay : ℚ
  reconnect_max_delay : ℚ
  reconnect_multiplier : ℚ
  dedup_mireds_threshold : Int
  dedup_brightness_threshold : Int
deriving Repr

/-- `UdpCommand` dataclass: one validated inbound command. -/
structure UdpCommand where
  zone : String
  kelvin : Int
  brightness : Int
  transition : Int
deriving Repr, DecidableEq

/-! ## Conversion utilities (`ambient_bridge.py` lines 124–133) -/

/-- `kelvin_to_mireds`: clamp kelvin to the zone range, then
`int(1_000_000 / kelvin)` on the clamped value. -/
def kelvin_to_mireds (kelvin min_kelvin max_kelvin : Int) : Int :=
  let k : Int := max min_kelvin (min max_kelvin kelvin)
  truncInt ((1000000 : ℚ) / (k : ℚ))

/-- `clamp_brightness`: apply the zone brightness multiplier with Python
`int` truncation and clamp to the Matter Level Control range 0–254. -/
def clamp_brightness (raw : Int) (multiplier : ℚ) : Int :=
  max 0 (min 254 (truncInt ((raw : ℚ) * multiplier)))

/-! ## Command queue (`run_bridge` line 438, `datagram_received` lines 192–202)

`asyncio.Queue(maxsize=100)` is modelled as a list whose head is the
consumer end (`get`/`get_nowait` pop the head, `put_nowait` appends). -/

/-- The `maxsize=100` passed to `asyncio.Queue` in `run_bridge`. -/
def QUEUE_MAXSIZE : Nat := 100

/-- The enqueue step of `datagram_received`: `put_nowait(cmd)`; on
`QueueFull` (size ≥ maxsize), `get_nowait()` the oldest entry and
`put_nowait(cmd)` again. -/
def enqueue (q : List UdpCommand) (cmd : UdpCommand) : List UdpCommand :=
  if q.length < QUEUE_MAXSIZE then q ++ [cmd] else q.tail ++ [cmd]

/-! ## Ingestion listener (`UdpCommandProtocol.datagram_received`, lines 149–202) -/

/-- A Python value as observed by `datagram_received`: its `str()` form and
the result of `int()` coercion (`none` when `int()` raises
`TypeError`/`ValueError`). -/
structure PyValue where
  strRepr : String
  asInt : Option Int

/-- A received datagram, quotiented by the decode stages of
`datagram_received`: bytes that fail UTF-8 decoding, text that fails JSON
parsing, a JSON value that is not an object, or a JSON object modelled as
its key-lookup function (Python dict keys are unique, so lookup determines
the payload). -/
inductive Packet where
  | invalidUtf8
  | invalidJson
  | nonObject
  | object (payload : String → Option PyValue)

/-- `UdpCommandProtocol.REQUIRED_FIELDS`. -/
def REQUIRED_FIELDS : List String := ["zone", "kelvin", "brightness", "transition"]

/-- `datagram_received`: validate the packet stage by stage, discarding (and
only logging) on any failure, and enqueue the parsed command otherwise.
Each early `return` of the Python code is a branch returning `q` unchanged. -/
def datagram_received (known_zones : List String) (q : List UdpCommand) :
    Packet → List UdpCommand
  | .invalidUtf8 => q
  | .invalidJson => q
  | .nonObject => q
  | .object payload =>
    let missing := REQUIRED_FIELDS.filter fun k => (payload k).isNone
    if missing ≠ [] then q
    else
      match payload "zone", payload "kelvin", payload "brightness",
          payload "transition" with
      | some zv, some kv, some bv, some tv =>
        let zone := zv.strRepr
        if zone ∈ known_zones then
          match kv.asInt with
          | none => q
          | some k =>
            match bv.asInt with
            | none => q
            | some b =>
              match tv.asInt with
              | none => q
              | some t => enqueue q ⟨zone, k, b, t⟩
        else q
      | _, _, _, _ => q

/-! ## Matter dispatch (`_send_to_bulb` and `send_zone_command`, lines 212–310) -/

/-- The two Matter command shapes issued by `_send_to_bulb`. -/
inductive MatterCommand where
  | moveToColorTemperature (mireds transition : Int)
  | moveToLevelWithOnOff (level transition : Int)
deriving Repr, DecidableEq

/-- One attempted `client.send_device_command` call and its outcome. -/
structure AttemptedCall where
  node_id : Int
  endpoint_id : Int
  command : MatterCommand
  result : Except String Unit

/-- The addressing-and-shape part of an attempted call (its outcome erased). -/
def AttemptedCall.shape (c : AttemptedCall) : Int × Int × MatterCommand :=
  (c.node_id, c.endpoint_id, c.command)

/-- Downstream failure oracle: what `client.send_device_command` does for a
given node, endpoint and command (`Except.error` = the call raises). -/
def SendOracle : Type := Int → Int → MatterCommand → Except String Unit

/-- `_send_to_bulb`: issue the color-temperature command and then the
level command to one node, each inside its own try/except, so a failure is
recorded (logged) and the next call still runs. -/
def send_to_bulb (oracle : SendOracle)
    (node_id endpoint_id mireds brightness transition : Int) :
    List AttemptedCall :=
  let c1 := MatterCommand.moveToColorTemperature mireds transition
  let c2 := MatterCommand.moveToLevelWithOnOff brightness transition
  [⟨node_id, endpoint_id, c1, oracle node_id endpoint_id c1⟩,
   ⟨node_id, endpoint_id, c2, oracle node_id endpoint_id c2⟩]

/-- The observable result of one `send_zone_command` call: whether the
dedup check returned early, the downstream calls issued (empty in dry-run,
which prints instead), and the zone state after the call. -/
structure DispatchResult where
  deduped : Bool
  calls : List AttemptedCall
  state : ZoneState

/-- `send_zone_command`: convert units, dedup against the zone state
(early return, state untouched), otherwise send to every node of the zone
sequentially and update the zone state to the just-computed values. -/
def send_zone_command (oracle : SendOracle) (zone_cfg : ZoneConfig)
    (zone_state : ZoneState) (cmd : UdpCommand) (config : BridgeConfig)
    (dry_run : Bool) : DispatchResult :=
  let brightness := clamp_brightness cmd.brightness zone_cfg.brightness_multiplier
  let mireds := kelvin_to_mireds cmd.kelvin zone_cfg.min_kelvin zone_cfg.max_kelvin
  if zone_state.last_mireds ≠ -1 ∧
      |mireds - zone_state.last_mireds| < config.dedup_mireds_threshold ∧
      |brightness - zone_state.last_brightness| < config.dedup_brightness_threshold then
    ⟨true, [], zone_state⟩
  else if dry_run then
    ⟨false, [], ⟨mireds, brightness⟩⟩
  else
    ⟨false,
     zone_cfg.node_ids.flatMap fun n =>
       send_to_bulb oracle n zone_cfg.endpoint_id mireds brightness cmd.transition,
     ⟨mireds, brightness⟩⟩

/-! ## Queue drain and reconnect supervisor (lines 337–414) -/

/-- `_drain_queue`: `get_nowait` until the queue is empty, counting the
discarded commands. Returns the queue after draining and the count. -/
def drain_queue : List UdpCommand → List UdpCommand × Nat
  | [] => ([], 0)
  | _ :: rest => ((drain_queue rest).1, (drain_queue rest).2 + 1)

/-- The outcomes of one iteration of the `while True` loop in
`_matter_reconnect_loop` that the code distinguishes: the three recoverable
connection errors, the fatal version mismatch, and a successful entry into
the `MatterClient` session. -/
inductive ConnectOutcome where
  | cannotConnect
  | connectionFailed
  | connectionReset
  | invalidServerVersion
  | success
deriving Repr, DecidableEq

/-- The connection errors handled by backoff-and-retry. -/
def ConnectOutcome.recoverable : ConnectOutcome → Prop := fun e =>
  e = .cannotConnect ∨ e = .connectionFailed ∨ e = .connectionReset

/-- Observable effects of one iteration of the supervisor loop. -/
structure SupervisorStep where
  slept : Option ℚ
  delay : ℚ
  queue : List UdpCommand
  exit_code : Option Int
  drained : Bool

/-- One iteration of `_matter_reconnect_loop`, given the backoff delay and
queue at its start: on success reset the delay, drain the queue and start
the command loop on the drained queue; on a recoverable error sleep for the
current delay then grow it by the multiplier capped at the max; on
`InvalidServerVersion` raise `SystemExit(1)`. -/
def reconnect_step (config : BridgeConfig) (delay : ℚ) (queue : List UdpCommand) :
    ConnectOutcome → SupervisorStep
  | .success =>
      { slept := none, delay := config.reconnect_initial_delay,
        queue := (drain_queue queue).1, exit_code := none, drained := true }
  | .invalidServerVersion =>
      { slept := none, delay := delay, queue := queue,
        exit_code := some 1, drained := false }
  | .cannotConnect =>
      { slept := some delay,
        delay := min (delay * config.reconnect_multiplier) config.reconnect_max_delay,
        queue := queue, exit_code := none, drained := false }
  | .connectionFailed =>
      { slept := some delay,
        delay := min (delay * config.reconnect_multiplier) config.reconnect_max_delay,
        queue := queue, exit_code := none, drained := false }
  | .connectionReset =>
      { slept := some delay,
        delay := min (delay * config.reconnect_multiplier) config.reconnect_max_delay,
        queue := queue, exit_code := none, drained := false }

/-! ## Reachable zone states (`run_bridge` line 437 and dispatch updates) -/

/-- The zone states reachable in a run: the `ZoneState()` built in
`run_bridge`, followed by any number of `send_zone_command` calls. Zone
configurations obey the documented invariant `min_kelvin > 0` (the config
default is 2700; the code comments that this rules out division by zero). -/
inductive ReachableZoneState : ZoneState → Prop where
  | init : ReachableZoneState ZoneState.initial
  | step (oracle : SendOracle) (zone_cfg : ZoneConfig) (s : ZoneState)
      (cmd : UdpCommand) (config : BridgeConfig) (dry_run : Bool)
      (hmin : 0 < zone_cfg.min_kelvin) (hs : ReachableZoneState s) :
      ReachableZoneState (send_zone_command oracle zone_cfg s cmd config dry_run).state

/-! ## Sample data used by the witnesses -/

/-- A concrete zone as in the spec scenario: bounds [2700, 6500], unit
multiplier, two bulbs. -/
def sampleZone : ZoneConfig := ⟨"ceiling", [11, 12], 1, 1, 2700, 6500⟩

/-- A concrete bridge config with the documented defaults. -/
def sampleConfig : BridgeConfig := ⟨2, 60, 2, 10, 5⟩

/-- A downstream oracle where every call succeeds. -/
def okOracle : SendOracle := fun _ _ _ => Except.ok ()

/-- A downstream oracle where every call raises. -/
def failOracle : SendOracle := fun _ _ _ => Except.error "send_device_command failed"

/-- A concrete well-formed command. -/
def sampleCmd : UdpCommand := ⟨"ceiling", 6500, 254, 8⟩

/-- A second concrete command. -/
def sampleCmd2 : UdpCommand := ⟨"ceiling", 2700, 20, 0⟩

/-- A concrete well-formed JSON payload carrying required keys only. -/
def samplePayload : String → Option PyValue := fun k =>
  if k = "zone" then some ⟨"ceiling", none⟩
  else if k = "kelvin" then some ⟨"6500", some 6500⟩
  else if k = "brightness" then some ⟨"254", some 254⟩
  else if k = "transition" then some ⟨"8", some 8⟩
  else none

/-! ## Shared helper lemmas -/

theorem truncInt_of_nonneg {q : ℚ} (h : 0 ≤ q) : truncInt q = ⌊q⌋ :=
  if_pos h

theorem kelvin_to_mireds_eq_ediv (kelvin min_kelvin max_kelvin : Int)
    (h : 0 < max min_kelvin (min max_kelvin kelvin)) :
    kelvin_to_mireds kelvin min_kelvin max_kelvin
      = 1000000 / max min_kelvin (min max_kelvin kelvin) := by
  have h2 : (0 : ℚ) ≤ 1000000 / ((max min_kelvin (min max_kelvin kelvin) : Int) : ℚ) := by
    have : (0 : ℚ) < ((max min_kelvin (min max_kelvin kelvin) : Int) : ℚ) := by
      exact_mod_cast h
    positivity
  simp only [kelvin_to_mireds, truncInt_of_nonneg h2]
  have h3 : (((max min_kelvin (min max_kelvin kelvin)).toNat : ℕ) : ℚ)
      = ((max min_kelvin (min max_kelvin kelvin) : Int) : ℚ) := by
    exact_mod_cast congrArg (fun z : Int => (z : ℚ)) (Int.toNat_of_nonneg h.le)
  calc ⌊(1000000 : ℚ) / ((max min_kelvin (min max_kelvin kelvin) : Int) : ℚ)⌋
      = ⌊((1000000 : Int) : ℚ) / (((max min_kelvin (min max_kelvin kelvin)).toNat : ℕ) : ℚ)⌋ := by
        rw [h3]; norm_num
    _ = (1000000 : Int) / (((max min_kelvin (min max_kelvin kelvin)).toNat : ℕ) : Int) :=
        Rat.floor_intCast_div_natCast _ _
    _ = 1000000 / max min_kelvin (min max_kelvin kelvin) := by
        rw [Int.toNat_of_nonneg h.le]

theorem kelvin_to_mireds_nonneg (kelvin min_kelvin max_kelvin : Int)
    (h : 0 < min_kelvin) :
    0 ≤ kelvin_to_mireds kelvin min_kelvin max_kelvin := by
  have hc : 0 < max min_kelvin (min max_kelvin kelvin) :=
    lt_of_lt_of_le h (le_max_left _ _)
  rw [kelvin_to_mireds_eq_ediv _ _ _ hc]
  exact Int.ediv_nonneg (by norm_num) hc.le

theorem clamp_brightness_nonneg (raw : Int) (multiplier : ℚ) :
    0 ≤ clamp_brightness raw multiplier :=
  le_max_left _ _

theorem clamp_brightness_le (raw : Int) (multiplier : ℚ) :
    clamp_brightness raw multiplier ≤ 254 :=
  max_le (by norm_num) (min_le_left _ _)

theorem drain_queue_eq (q : List UdpCommand) : drain_queue q = ([], q.length) := by
  induction q with
  | nil => rfl
  | cons c rest ih => simp [drain_queue, ih]

/-! ## Claim theorems -/

/-- C1 counterexample: the spec says `colorTemperatureToProtocolUnits`
returns `round(1_000_000 / kelvin)` and yields 154 at kelvin = 6500 with
bounds [2700, 6500]; the code (`int(1_000_000 / kelvin)`) truncates and
yields 153 there, while rounding would yield 154. -/
theorem kelvin_to_mireds_rounding_counterexample :
    kelvin_to_mireds 6500 2700 6500 = 153 ∧
    round ((1000000 : ℚ) / 6500) = 154 ∧
    kelvin_to_mireds 6500 2700 6500 ≠ 154 := by
  refine ⟨?_, ?_, ?_⟩
  · simp only [kelvin_to_mireds, truncInt]; norm_num
  · rw [round_eq]; norm_num
  · simp only [kelvin_to_mireds, truncInt]; norm_num

/-- C1 amended: for `0 < minKelvin ≤ maxKelvin`, `kelvin_to_mireds` first
clamps kelvin into `[minKelvin, maxKelvin]` and then returns the
truncation `int(1_000_000 / clampedKelvin)` (floor division, since the
clamped value is positive); in particular, for minKelvin = 2700,
maxKelvin = 6500 and kelvin = 6500 it returns 153. -/
theorem kelvin_to_mireds_clamps_then_truncates
    (kelvin min_kelvin max_kelvin : Int)
    (h0 : 0 < min_kelvin) (hle : min_kelvin ≤ max_kelvin) :
    min_kelvin ≤ max min_kelvin (min max_kelvin kelvin) ∧
    max min_kelvin (min max_kelvin kelvin) ≤ max_kelvin ∧
    kelvin_to_mireds kelvin min_kelvin max_kelvin
      = 1000000 / max min_kelvin (min max_kelvin kelvin) ∧
    kelvin_to_mireds 6500 2700 6500 = 153 := by
  refine ⟨le_max_left _ _, max_le hle (min_le_left _ _), ?_, ?_⟩
  · exact kelvin_to_mireds_eq_ediv _ _ _ (lt_of_lt_of_le h0 (le_max_left _ _))
  · simp only [kelvin_to_mireds, truncInt]; norm_num

/-- Witness for the amended C1 theorem at kelvin = 6500, bounds [2700, 6500]. -/
theorem kelvin_to_mireds_clamps_then_truncates_witness :
    (0 : Int) < 2700 ∧ (2700 : Int) ≤ 6500 ∧
    kelvin_to_mireds 6500 2700 6500 = 1000000 / max 2700 (min 6500 6500) := by
  refine ⟨by norm_num, by norm_num, ?_⟩
  exact (kelvin_to_mireds_clamps_then_truncates 6500 2700 6500
    (by norm_num) (by norm_num)).2.2.1

/-- C9: `clamp_brightness` truncates `raw * multiplier` and clamps to
[0, 254]; for `0 ≤ raw` and `0 ≤ multiplier` the truncation is the floor,
the lower clamp is inert, and the output lies in [0, 254]. -/
theorem clamp_brightness_range (raw : Int) (multiplier : ℚ)
    (hraw : 0 ≤ raw) (hmul : 0 ≤ multiplier) :
    0 ≤ clamp_brightness raw multiplier ∧
    clamp_brightness raw multiplier ≤ 254 ∧
    clamp_brightness raw multiplier = min 254 ⌊(raw : ℚ) * multiplier⌋ := by
  have hprod : (0 : ℚ) ≤ (raw : ℚ) * multiplier := by
    have : (0 : ℚ) ≤ (raw : ℚ) := by exact_mod_cast hraw
    exact mul_nonneg this hmul
  refine ⟨clamp_brightness_nonneg _ _, clamp_brightness_le _ _, ?_⟩
  simp only [clamp_brightness, truncInt_of_nonneg hprod]
  exact max_eq_right (le_min (by norm_num) (Int.floor_nonneg.2 hprod))

/-- Witness for C9 at raw = 254, multiplier = 1. -/
theorem clamp_brightness_range_witness :
    (0 : Int) ≤ 254 ∧ (0 : ℚ) ≤ 1 ∧
    (0 ≤ clamp_brightness 254 1 ∧ clamp_brightness 254 1 ≤ 254 ∧
      clamp_brightness 254 1 = min 254 ⌊((254 : Int) : ℚ) * 1⌋) :=
  ⟨by norm_num, by norm_num, clamp_brightness_range 254 1 (by norm_num) (by norm_num)⟩

/-- C2: when the stored last-sent color is not the sentinel and both deltas
are strictly below their thresholds, `send_zone_command` returns early:
no downstream calls, state unchanged; when the stored state is the
sentinel (`last_mireds = -1`), the command is never suppressed. -/
theorem dedup_skips_below_thresholds_never_first (oracle : SendOracle)
    (zone_cfg : ZoneConfig) (s : ZoneState) (cmd : UdpCommand)
    (config : BridgeConfig) (dry_run : Bool) :
    (s.last_mireds ≠ -1 →
      |kelvin_to_mireds cmd.kelvin zone_cfg.min_kelvin zone_cfg.max_kelvin
        - s.last_mireds| < config.dedup_mireds_threshold →
      |clamp_brightness cmd.brightness zone_cfg.brightness_multiplier
        - s.last_brightness| < config.dedup_brightness_threshold →
      send_zone_command oracle zone_cfg s cmd config dry_run = ⟨true, [], s⟩) ∧
    (s.last_mireds = -1 →
      (send_zone_command oracle zone_cfg s cmd config dry_run).deduped = false) := by
  constructor
  · intro h1 h2 h3
    simp only [send_zone_command]
    rw [if_pos ⟨h1, h2, h3⟩]
  · intro h
    simp only [send_zone_command]
    rw [if_neg (fun hc => hc.1 h)]
    cases dry_run <;> rfl

/-- Witness for C2: the spec's dedup scenario (state ⟨154, 254⟩, command
kelvin 6490 / brightness 250, thresholds 10 and 5) is skipped with the
state unchanged, and a sentinel-state zone is not suppressed. -/
theorem dedup_skips_below_thresholds_never_first_witness :
    send_zone_command okOracle sampleZone ⟨154, 254⟩ ⟨"ceiling", 6490, 250, 8⟩
      sampleConfig false = ⟨true, [], ⟨154, 254⟩⟩ ∧
    (send_zone_command okOracle sampleZone ZoneState.initial
      ⟨"ceiling", 6490, 250, 8⟩ sampleConfig false).deduped = false := by
  constructor
  · refine (dedup_skips_below_thresholds_never_first okOracle sampleZone ⟨154, 254⟩
      ⟨"ceiling", 6490, 250, 8⟩ sampleConfig false).1 (by decide) ?_ ?_
    · show |kelvin_to_mireds 6490 sampleZone.min_kelvin sampleZone.max_kelvin - 154|
        < sampleConfig.dedup_mireds_threshold
      simp only [sampleZone, sampleConfig, kelvin_to_mireds, truncInt]
      norm_num
    · show |clamp_brightness 250 sampleZone.brightness_multiplier - 254|
        < sampleConfig.dedup_brightness_threshold
      simp only [sampleZone, sampleConfig, clamp_brightness, truncInt]
      norm_num
  · exact (dedup_skips_below_thresholds_never_first okOracle sampleZone
      ZoneState.initial ⟨"ceiling", 6490, 250, 8⟩ sampleConfig false).2 rfl

/-- C3: the queue never exceeds its capacity of 100; enqueuing into a full
queue evicts the oldest (head) entry and appends the new command, which is
always present at the back (the producer never blocks and never drops the
newest item). -/
theorem enqueue_bounded_evicts_oldest (q : List UdpCommand) (c : UdpCommand) :
    (q.length ≤ QUEUE_MAXSIZE → (enqueue q c).length ≤ QUEUE_MAXSIZE) ∧
    (q.length = QUEUE_MAXSIZE →
      enqueue q c = q.tail ++ [c] ∧ (enqueue q c).length = QUEUE_MAXSIZE) ∧
    c ∈ enqueue q c ∧
    (enqueue q c).getLast? = some c := by
  refine ⟨?_, ?_, ?_, ?_⟩
  · intro hle
    unfold enqueue
    split
    · next hlt => simpa using hlt
    · next hlt =>
      have hq : q.length = QUEUE_MAXSIZE := le_antisymm hle (Nat.le_of_not_lt hlt)
      simp only [List.length_append, List.length_tail, hq, List.length_cons,
        List.length_nil, QUEUE_MAXSIZE]
      omega
  · intro hq
    have hnlt : ¬q.length < QUEUE_MAXSIZE := by omega
    unfold enqueue
    rw [if_neg hnlt]
    refine ⟨rfl, ?_⟩
    simp only [List.length_append, List.length_tail, hq, List.length_cons,
      List.length_nil]
    simp [QUEUE_MAXSIZE]
  · unfold enqueue
    split <;> simp
  · unfold enqueue
    split <;> exact List.getLast?_concat _

/-- Witness for C3: a full queue of 100 commands evicts its head on the
101st enqueue and stays at length 100. -/
theorem enqueue_bounded_evicts_oldest_witness :
    (List.replicate 100 sampleCmd).length = QUEUE_MAXSIZE ∧
    enqueue (List.replicate 100 sampleCmd) sampleCmd2
      = (List.replicate 100 sampleCmd).tail ++ [sampleCmd2] ∧
    (enqueue (List.replicate 100 sampleCmd) sampleCmd2).length = QUEUE_MAXSIZE := by
  have hlen : (List.replicate 100 sampleCmd).length = QUEUE_MAXSIZE := by
    simp [QUEUE_MAXSIZE]
  have h := (enqueue_bounded_evicts_oldest (List.replicate 100 sampleCmd)
    sampleCmd2).2.1 hlen
  exact ⟨hlen, h.1, h.2⟩

/-- C4: on a successful transition to Connected, `_drain_queue` runs and
empties the queue before the command loop starts, so any command queued
while disconnected is absent from the queue the dispatch loop consumes. -/
theorem reconnect_drains_queue_before_dispatch (config : BridgeConfig)
    (delay : ℚ) (queue : List UdpCommand) :
    (reconnect_step config delay queue .success).drained = true ∧
    (reconnect_step config delay queue .success).queue = [] ∧
    ∀ c ∈ queue, c ∉ (reconnect_step config delay queue .success).queue := by
  refine ⟨rfl, ?_, ?_⟩
  · simp [reconnect_step, drain_queue_eq]
  · intro c _
    simp [reconnect_step, drain_queue_eq]

/-- Witness for C4: one command queued while disconnected is gone after the
reconnect transition. -/
theorem reconnect_drains_queue_before_dispatch_witness :
    (reconnect_step sampleConfig 2 [sampleCmd] .success).queue = [] ∧
    sampleCmd ∉ (reconnect_step sampleConfig 2 [sampleCmd] .success).queue := by
  have h := reconnect_drains_queue_before_dispatch sampleConfig 2 [sampleCmd]
  exact ⟨h.2.1, h.2.2 sampleCmd (by simp)⟩

/-- C6: on each recoverable connection error the supervisor sleeps for the
current delay and then sets it to `min (delay × multiplier) maxDelay`, so
the new delay never exceeds the configured maximum, and no exit is raised
(a retry always follows); on success the delay is reset to the initial
value. -/
theorem backoff_sleeps_grows_capped_resets (config : BridgeConfig)
    (delay : ℚ) (queue : List UdpCommand) (e : ConnectOutcome)
    (he : e.recoverable) :
    (reconnect_step config delay queue e).slept = some delay ∧
    (reconnect_step config delay queue e).delay
      = min (delay * config.reconnect_multiplier) config.reconnect_max_delay ∧
    (reconnect_step config delay queue e).delay ≤ config.reconnect_max_delay ∧
    (reconnect_step config delay queue e).exit_code = none ∧
    (reconnect_step config delay queue .success).delay
      = config.reconnect_initial_delay := by
  rcases he with h | h | h <;> subst h <;>
    exact ⟨rfl, rfl, min_le_right _ _, rfl, rfl⟩

/-- Witness for C6 at the default config, delay 2, a cannot-connect error. -/
theorem backoff_sleeps_grows_capped_resets_witness :
    (reconnect_step sampleConfig 2 [] .cannotConnect).slept = some 2 ∧
    (reconnect_step sampleConfig 2 [] .cannotConnect).delay
      ≤ sampleConfig.reconnect_max_delay ∧
    (reconnect_step sampleConfig 2 [] .cannotConnect).exit_code = none := by
  have h := backoff_sleeps_grows_capped_resets sampleConfig 2 [] .cannotConnect
    (Or.inl rfl)
  exact ⟨h.1, h.2.2.1, h.2.2.2.1⟩

/-- C8: an iteration of the supervisor loop terminates the process if and
only if the downstream server reported an incompatible version, and then
with the non-zero status 1; recoverable session failures never exit (and
malformed input and per-device failures are handled inside
`datagram_received` and `send_zone_command`, which return normally). -/
theorem fatal_exit_iff_invalid_version (config : BridgeConfig) (delay : ℚ)
    (queue : List UdpCommand) :
    (∀ e : ConnectOutcome,
      (reconnect_step config delay queue e).exit_code ≠ none
        ↔ e = .invalidServerVersion) ∧
    (reconnect_step config delay queue .invalidServerVersion).exit_code
      = some 1 ∧
    (1 : Int) ≠ 0 ∧
    (∀ e : ConnectOutcome, e.recoverable →
      (reconnect_step config delay queue e).exit_code = none) := by
  refine ⟨?_, rfl, by norm_num, ?_⟩
  · intro e
    cases e <;> simp [reconnect_step]
  · intro e he
    rcases he with h | h | h <;> subst h <;> rfl

/-- Witness for C8: the invalid-version outcome exits with status 1 while a
recoverable error does not exit. -/
theorem fatal_exit_iff_invalid_version_witness :
    (reconnect_step sampleConfig 2 [] .invalidServerVersion).exit_code
      = some 1 ∧
    (reconnect_step sampleConfig 2 [] .connectionReset).exit_code = none := by
  have h := fatal_exit_iff_invalid_version sampleConfig 2 []
  exact ⟨h.2.1, h.2.2.2 .connectionReset (Or.inr (Or.inr rfl))⟩

/-- C7: in a non-deduplicated live dispatch, both downstream calls are
attempted for every device of the zone whatever the failure oracle says
(a failing call never aborts the remaining devices), and the zone state
is afterwards set to the just-computed color and brightness regardless of
how many calls failed. -/
theorem dispatch_attempts_all_devices_updates_state (oracle : SendOracle)
    (zone_cfg : ZoneConfig) (s : ZoneState) (cmd : UdpCommand)
    (config : BridgeConfig)
    (h : ¬(s.last_mireds ≠ -1 ∧
      |kelvin_to_mireds cmd.kelvin zone_cfg.min_kelvin zone_cfg.max_kelvin
        - s.last_mireds| < config.dedup_mireds_threshold ∧
      |clamp_brightness cmd.brightness zone_cfg.brightness_multiplier
        - s.last_brightness| < config.dedup_brightness_threshold)) :
    ((send_zone_command oracle zone_cfg s cmd config false).calls.map
        AttemptedCall.shape
      = zone_cfg.node_ids.flatMap fun n =>
          [(n, zone_cfg.endpoint_id,
            MatterCommand.moveToColorTemperature
              (kelvin_to_mireds cmd.kelvin zone_cfg.min_kelvin zone_cfg.max_kelvin)
              cmd.transition),
           (n, zone_cfg.endpoint_id,
            MatterCommand.moveToLevelWithOnOff
              (clamp_brightness cmd.brightness zone_cfg.brightness_multiplier)
              cmd.transition)]) ∧
    (send_zone_command oracle zone_cfg s cmd config false).state
      = ⟨kelvin_to_mireds cmd.kelvin zone_cfg.min_kelvin zone_cfg.max_kelvin,
         clamp_brightness cmd.brightness zone_cfg.brightness_multiplier⟩ := by
  simp only [send_zone_command]
  rw [if_neg h]
  simp only [Bool.false_eq_true, if_false]
  constructor
  · rw [List.map_flatMap]
    rfl
  · trivial

/-- Witness for C7: with an oracle that fails every call, both calls are
still attempted on both bulbs of the sample zone and the state updates. -/
theorem dispatch_attempts_all_devices_updates_state_witness :
    ((send_zone_command failOracle sampleZone ZoneState.initial sampleCmd
        sampleConfig false).calls.map AttemptedCall.shape
      = [(11, 1, .moveToColorTemperature 153 8), (11, 1, .moveToLevelWithOnOff 254 8),
         (12, 1, .moveToColorTemperature 153 8), (12, 1, .moveToLevelWithOnOff 254 8)]) ∧
    (send_zone_command failOracle sampleZone ZoneState.initial sampleCmd
        sampleConfig false).state = ⟨153, 254⟩ := by
  have h := dispatch_attempts_all_devices_updates_state failOracle sampleZone
    ZoneState.initial sampleCmd sampleConfig (fun hc => hc.1 rfl)
  have hm : kelvin_to_mireds sampleCmd.kelvin sampleZone.min_kelvin
      sampleZone.max_kelvin = 153 := by
    simp only [sampleCmd, sampleZone, kelvin_to_mireds, truncInt]
    norm_num
  have hb : clamp_brightness sampleCmd.brightness
      sampleZone.brightness_multiplier = 254 := by
    simp only [sampleCmd, sampleZone, clamp_brightness, truncInt]
    norm_num
  constructor
  · rw [h.1, hm, hb]
    rfl
  · rw [h.2, hm, hb]

/-- C10: in every reachable zone state, `last_mireds` is the sentinel -1
exactly when `last_brightness` is: both start at -1 and every update writes
both fields with values that are respectively ≥ 0 (mireds of a positive
clamped kelvin) and in [0, 254]. -/
theorem zone_state_sentinel_iff (s : ZoneState) (h : ReachableZoneState s) :
    s.last_mireds = -1 ↔ s.last_brightness = -1 := by
  induction h with
  | init => simp [ZoneState.initial]
  | step oracle zone_cfg s cmd config dry_run hmin hs ih =>
    have hm : kelvin_to_mireds cmd.kelvin zone_cfg.min_kelvin
        zone_cfg.max_kelvin ≠ -1 := by
      have := kelvin_to_mireds_nonneg cmd.kelvin zone_cfg.min_kelvin
        zone_cfg.max_kelvin hmin
      omega
    have hb : clamp_brightness cmd.brightness
        zone_cfg.brightness_multiplier ≠ -1 := by
      have := clamp_brightness_nonneg cmd.brightness zone_cfg.brightness_multiplier
      omega
    simp only [send_zone_command]
    split
    · exact ih
    · split
      · simp [hm, hb]
      · simp [hm, hb]

/-- Witness for C10 at the initial (sentinel) state. -/
theorem zone_state_sentinel_iff_witness :
    ZoneState.initial.last_mireds = -1 ↔ ZoneState.initial.last_brightness = -1 :=
  zone_state_sentinel_iff ZoneState.initial ReachableZoneState.init

/-- C5: `datagram_received` is a total function on every decoded packet
(no failure raises to the caller); packets that are invalid UTF-8, invalid
JSON, not a JSON object, missing a required key, naming an unknown zone,
or whose kelvin/brightness/transition fail integer coercion leave the queue
unchanged; every well-formed packet naming a known zone is enqueued as a
command, and keys outside the four required ones never affect the result. -/
theorem listener_discards_malformed_enqueues_wellformed
    (known_zones : List String) (q : List UdpCommand) :
    datagram_received known_zones q .invalidUtf8 = q ∧
    datagram_received known_zones q .invalidJson = q ∧
    datagram_received known_zones q .nonObject = q ∧
    (∀ payload : String → Option PyValue,
      (∃ k ∈ REQUIRED_FIELDS, payload k = none) →
      datagram_received known_zones q (.object payload) = q) ∧
    (∀ (payload : String → Option PyValue) (zv kv bv tv : PyValue),
      payload "zone" = some zv → payload "kelvin" = some kv →
      payload "brightness" = some bv → payload "transition" = some tv →
      (zv.strRepr ∉ known_zones →
        datagram_received known_zones q (.object payload) = q) ∧
      (zv.strRepr ∈ known_zones →
        kv.asInt = none ∨ bv.asInt = none ∨ tv.asInt = none →
        datagram_received known_zones q (.object payload) = q) ∧
      (∀ k b t : Int, zv.strRepr ∈ known_zones →
        kv.asInt = some k → bv.asInt = some b → tv.asInt = some t →
        datagram_received known_zones q (.object payload)
          = enqueue q ⟨zv.strRepr, k, b, t⟩)) ∧
    (∀ p1 p2 : String → Option PyValue,
      (∀ k ∈ REQUIRED_FIELDS, p1 k = p2 k) →
      datagram_received known_zones q (.object p1)
        = datagram_received known_zones q (.object p2)) := by
  refine ⟨rfl, rfl, rfl, ?_, ?_, ?_⟩
  · rintro payload ⟨k, hk, hnone⟩
    have hmem : k ∈ REQUIRED_FIELDS.filter (fun s => (payload s).isNone) :=
      List.mem_filter.2 ⟨hk, by simp [hnone]⟩
    simp only [datagram_received]
    rw [if_pos (List.ne_nil_of_mem hmem)]
  · intro payload zv kv bv tv hz hk hb ht
    have hfilter : REQUIRED_FIELDS.filter (fun s => (payload s).isNone) = [] := by
      simp [REQUIRED_FIELDS, hz, hk, hb, ht]
    have hred : datagram_received known_zones q (.object payload)
        = (if zv.strRepr ∈ known_zones then
            match kv.asInt with
            | none => q
            | some k =>
              match bv.asInt with
              | none => q
              | some b =>
                match tv.asInt with
                | none => q
                | some t => enqueue q ⟨zv.strRepr, k, b, t⟩
          else q) := by
      simp only [datagram_received, hfilter, hz, hk, hb, ht, ne_eq,
        not_true_eq_false, if_false]
    refine ⟨?_, ?_, ?_⟩
    · intro hnotin
      rw [hred, if_neg hnotin]
    · intro hmem hco
      rw [hred, if_pos hmem]
      rcases hco with h | h | h
      · simp only [h]
      · cases hkv : kv.asInt <;> simp only [hkv, h]
      · cases hkv : kv.asInt <;> cases hbv : bv.asInt <;> simp only [hkv, hbv, h]
    · intro k b t hmem hik hib hit
      rw [hred, if_pos hmem]
      simp only [hik, hib, hit]
  · intro p1 p2 hagree
    have hz := hagree "zone" (by simp [REQUIRED_FIELDS])
    have hk := hagree "kelvin" (by simp [REQUIRED_FIELDS])
    have hb := hagree "brightness" (by simp [REQUIRED_FIELDS])
    have ht := hagree "transition" (by simp [REQUIRED_FIELDS])
    have hfil : REQUIRED_FIELDS.filter (fun s => (p1 s).isNone)
        = REQUIRED_FIELDS.filter (fun s => (p2 s).isNone) :=
      List.filter_congr (fun x hx => by rw [hagree x hx])
    simp only [datagram_received, hfil, hz, hk, hb, ht]

/-- Witness for C5: the sample payload, received with the queue empty and
`"ceiling"` configured, enqueues the parsed command. -/
theorem listener_discards_malformed_enqueues_wellformed_witness :
    datagram_received ["ceiling"] [] (.object samplePayload)
      = enqueue [] ⟨"ceiling", 6500, 254, 8⟩ := by
  have h := ((listener_discards_malformed_enqueues_wellformed
      ["ceiling"] []).2.2.2.2.1 samplePayload
      ⟨"ceiling", none⟩ ⟨"6500", some 6500⟩ ⟨"254", some 254⟩ ⟨"8", some 8⟩
      rfl rfl rfl rfl).2.2 6500 254 8 (by simp) rfl rfl rfl
  exact h

end AmbiMatter
